import Mathlib

/-!
Verification of the VM provisioning transaction of `src/virtual_environment.py`
(`create_vm` and its rollback helper `rollback_resources`).

The embedding models the observable behavior of the Python code:
  * the configuration dictionary accesses at the top of `create_vm`
    (a missing key raises `KeyError` before any cloud call);
  * the sequence of cloud API calls issued (create-or-update calls and,
    during rollback, delete calls), recorded as an event trace;
  * the `created_resources` list used for rollback bookkeeping;
  * the value returned to the caller, or the exception propagated to it.

Cloud provider responses and the filesystem are abstracted by a `Behavior`
record: for each resource kind, the outcome of its create-or-update call
(a returned handle, modelled by its id string, or a raised provider error),
the outcome of reading the SSH public key file, and the outcome of each
delete call. Console progress prints are not modelled, except for the
rollback failure print, which is the only record the code keeps of a failed
deletion and is modelled as a `logFail` event.
-/

set_option autoImplicit false

/-- Resource kinds appearing in the provisioning transaction, as tagged in
the `created_resources` list of the source plus the resource group. -/
inductive RKind where
  | rg
  | vnet
  | subnet
  | nsg
  | publicIp
  | nic
  | vm
  deriving DecidableEq, Repr

/-- A Python value stored in the `created_resources` list or passed as the
name argument of a delete call: either a plain name string, or the result
object returned by a create call (modelled by its id string). The source
stores the result object for the public IP entry because the variable
holding the configured name is shadowed by the creation result. -/
inductive PyVal where
  | str (s : String)
  | handle (h : String)
  deriving DecidableEq, Repr

/-- Observable actions of a run: cloud create-or-update calls with the
values passed to them, cloud delete calls with the resource-group and name
arguments passed to them, and the console record of a failed deletion. -/
inductive Event where
  | create (kind : RKind) (args : List PyVal)
  | delete (kind : RKind) (group : String) (name : PyVal)
  | logFail (kind : RKind) (name : PyVal) (err : String)
  deriving DecidableEq, Repr

/-- Exceptions the embedded code can propagate to the caller: a missing
configuration key (`KeyError`), a failure to open or read the SSH public
key file, or an error raised by a provider call. -/
inductive PyErr where
  | keyError (field : String)
  | fileError (path : String)
  | provider (msg : String)
  deriving DecidableEq, Repr

/-- Environment of one run: the outcome of each create-or-update call
(per resource kind), of reading a file, and of each delete call. -/
structure Behavior where
  createRes : RKind → Except String String
  readFile : String → Option String
  deleteRes : RKind → PyVal → Except String Unit

/-- The configuration dictionary as accessed by `create_vm`: each required
entry may be present or missing. Nested access such as cfg-vm-name is
flattened to one field per accessed path. -/
structure Cfg where
  subscription_id : Option String
  rg_name : Option String
  rg_location : Option String
  vm_name : Option String
  vm_size : Option String
  admin_username : Option String
  ssh_public_key_path : Option String
  virtual_network : Option String
  sub_network : Option String
  network_security_grp : Option String
  public_ip : Option String
  network_interface : Option String

/-- The local variables of `create_vm` after the configuration accesses at
lines 23 to 34 of the source have all succeeded. -/
structure XCfg where
  subscription_id : String
  resource_group : String
  location : String
  vm_name : String
  vm_size : String
  admin_username : String
  ssh_public_key_path : String
  virtual_network : String
  sub_network : String
  network_security_grp : String
  public_ip : String
  network_interface : String
  deriving DecidableEq, Repr

/-- One dictionary access: the value when the key is present, otherwise a
`KeyError` naming the key. -/
def req (o : Option String) (key : String) : Except PyErr String :=
  match o with
  | none => Except.error (PyErr.keyError key)
  | some v => Except.ok v

/-- The configuration accesses of `create_vm` (source lines 23 to 34), in
source order. The first missing key raises before any client is built and
before any cloud call. `os.path.expanduser` is kept abstract (the path is
used as given). -/
def extract (cfg : Cfg) : Except PyErr XCfg := do
  let sid ← req cfg.subscription_id "subscription_id"
  let rgn ← req cfg.rg_name "resource_group.name"
  let loc ← req cfg.rg_location "resource_group.location"
  let vmn ← req cfg.vm_name "vm.name"
  let vms ← req cfg.vm_size "vm.size"
  let adm ← req cfg.admin_username "vm.admin_username"
  let sshp ← req cfg.ssh_public_key_path "vm.ssh_public_key_path"
  let vn ← req cfg.virtual_network "vm.virtual_network"
  let sn ← req cfg.sub_network "vm.sub_network"
  let nsgn ← req cfg.network_security_grp "vm.network_security_grp"
  let pipn ← req cfg.public_ip "vm.public_ip"
  let nicn ← req cfg.network_interface "vm.network_interface"
  pure ⟨sid, rgn, loc, vmn, vms, adm, sshp, vn, sn, nsgn, pipn, nicn⟩

/-- Whether the if-elif chain of `rollback_resources` has a branch issuing
a delete call for this kind. The subnet branch is an explicit skip in the
source (subnets are deleted with their parent virtual network); the
resource group has no branch at all, so it falls through with no call. -/
def deletable (k : RKind) : Bool :=
  match k with
  | RKind.vm | RKind.nic | RKind.publicIp | RKind.nsg | RKind.vnet => true
  | RKind.subnet | RKind.rg => false

/-- The loop body of `rollback_resources` applied to an already-reversed
created-resources list: for each entry with a delete branch, issue the
delete call with the stored name value; when the call raises, print the
failure record (kind, name, error) and continue with the next entry. -/
def rollback_go (B : Behavior) (group : String) : List (RKind × PyVal) → List Event
  | [] => []
  | (k, n) :: rest =>
    if deletable k then
      match B.deleteRes k n with
      | Except.ok _ => Event.delete k group n :: rollback_go B group rest
      | Except.error e =>
          Event.delete k group n :: Event.logFail k n e :: rollback_go B group rest
    else rollback_go B group rest

/-- Embedding of `rollback_resources` (source lines 177 to 198): iterate
the created-resources list in reverse, issue one delete call per entry
except for subnet entries, catch and print every delete failure, and keep
going. The Python function returns `None`; the event list returned here is
its observable trace of delete calls and failure prints. -/
def rollback_resources (B : Behavior) (group : String)
    (created : List (RKind × PyVal)) : List Event :=
  rollback_go B group created.reverse

/-- The result of one run of `create_vm`: the value returned to the caller
(or the exception propagated to it), the final `created_resources` list,
and the trace of cloud calls and rollback failure prints. -/
structure RunResult where
  result : Except PyErr Unit
  committed : List (RKind × PyVal)
  events : List Event
  deriving Repr

/-- Embedding of the try-block of `create_vm` (source lines 45 to 170):
ensure the resource group, then create virtual network, subnet, NSG,
public IP, NIC, read the SSH key file, and create the VM, appending to
`created_resources` after each successful step. On the first raised error,
run `rollback_resources` on what was committed so far and re-raise the
original error. Two faithful quirks of the source: the subnet call is made
with the virtual network NAME (the handle returned by the vnet call is
never used), and the public IP entry appended to `created_resources` is
the creation RESULT OBJECT, because the `public_ip` variable holding the
configured name is shadowed by the result at line 90. -/
def run_steps (x : XCfg) (B : Behavior) : RunResult :=
  let g := x.resource_group
  let ev0 : List Event := [Event.create RKind.rg [PyVal.str g, PyVal.str x.location]]
  match B.createRes RKind.rg with
  | Except.error e =>
      ⟨Except.error (PyErr.provider e), [], ev0 ++ rollback_resources B g []⟩
  | Except.ok _ =>
    let ev1 := ev0 ++ [Event.create RKind.vnet [PyVal.str g, PyVal.str x.virtual_network]]
    match B.createRes RKind.vnet with
    | Except.error e =>
        ⟨Except.error (PyErr.provider e), [], ev1 ++ rollback_resources B g []⟩
    | Except.ok _vnetHandle =>
      let c1 : List (RKind × PyVal) := [(RKind.vnet, PyVal.str x.virtual_network)]
      let ev2 := ev1 ++ [Event.create RKind.subnet
        [PyVal.str g, PyVal.str x.virtual_network, PyVal.str x.sub_network]]
      match B.createRes RKind.subnet with
      | Except.error e =>
          ⟨Except.error (PyErr.provider e), c1, ev2 ++ rollback_resources B g c1⟩
      | Except.ok subnetHandle =>
        let c2 := c1 ++ [(RKind.subnet, PyVal.str x.sub_network)]
        let ev3 := ev2 ++ [Event.create RKind.nsg
          [PyVal.str g, PyVal.str x.network_security_grp]]
        match B.createRes RKind.nsg with
        | Except.error e =>
            ⟨Except.error (PyErr.provider e), c2, ev3 ++ rollback_resources B g c2⟩
        | Except.ok nsgHandle =>
          let c3 := c2 ++ [(RKind.nsg, PyVal.str x.network_security_grp)]
          let ev4 := ev3 ++ [Event.create RKind.publicIp
            [PyVal.str g, PyVal.str x.public_ip]]
          match B.createRes RKind.publicIp with
          | Except.error e =>
              ⟨Except.error (PyErr.provider e), c3, ev4 ++ rollback_resources B g c3⟩
          | Except.ok publicIpHandle =>
            let c4 := c3 ++ [(RKind.publicIp, PyVal.handle publicIpHandle)]
            let ev5 := ev4 ++ [Event.create RKind.nic
              [PyVal.str g, PyVal.str x.network_interface, PyVal.handle subnetHandle,
               PyVal.handle publicIpHandle, PyVal.handle nsgHandle]]
            match B.createRes RKind.nic with
            | Except.error e =>
                ⟨Except.error (PyErr.provider e), c4, ev5 ++ rollback_resources B g c4⟩
            | Except.ok nicHandle =>
              let c5 := c4 ++ [(RKind.nic, PyVal.str x.network_interface)]
              match B.readFile x.ssh_public_key_path with
              | none =>
                  ⟨Except.error (PyErr.fileError x.ssh_public_key_path), c5,
                   ev5 ++ rollback_resources B g c5⟩
              | some sshKeyData =>
                let ev6 := ev5 ++ [Event.create RKind.vm
                  [PyVal.str g, PyVal.str x.vm_name, PyVal.handle nicHandle,
                   PyVal.str sshKeyData, PyVal.str x.admin_username]]
                match B.createRes RKind.vm with
                | Except.error e =>
                    ⟨Except.error (PyErr.provider e), c5, ev6 ++ rollback_resources B g c5⟩
                | Except.ok _ =>
                    ⟨Except.ok (), c5 ++ [(RKind.vm, PyVal.str x.vm_name)], ev6⟩

/-- Embedding of `create_vm` (source lines 21 to 170): configuration
accesses first (a missing key raises before any cloud call and without
any rollback), then the provisioning transaction. -/
def create_vm (cfg : Cfg) (B : Behavior) : RunResult :=
  match extract cfg with
  | Except.error e => ⟨Except.error e, [], []⟩
  | Except.ok x => run_steps x B

/-- A configuration dictionary in which every required key is present. -/
def mkCfg (x : XCfg) : Cfg :=
  ⟨some x.subscription_id, some x.resource_group, some x.location, some x.vm_name,
   some x.vm_size, some x.admin_username, some x.ssh_public_key_path,
   some x.virtual_network, some x.sub_network, some x.network_security_grp,
   some x.public_ip, some x.network_interface⟩

/-- The delete calls of a trace, in order, as (kind, name-argument) pairs. -/
def deletesOf (evs : List Event) : List (RKind × PyVal) :=
  evs.filterMap fun e =>
    match e with
    | Event.delete k _ n => some (k, n)
    | _ => none

/-- The kinds of the create-or-update calls of a trace, in order. -/
def createKinds (evs : List Event) : List RKind :=
  evs.filterMap fun e =>
    match e with
    | Event.create k _ => some k
    | _ => none

/-- The kind of the i-th provisioning step (0-indexed), in the fixed order
of the source: VNet, Subnet, NSG, PublicIP, NIC, VM. -/
def kindOf : Fin 6 → RKind
  | ⟨0, _⟩ => RKind.vnet
  | ⟨1, _⟩ => RKind.subnet
  | ⟨2, _⟩ => RKind.nsg
  | ⟨3, _⟩ => RKind.publicIp
  | ⟨4, _⟩ => RKind.nic
  | ⟨5, _⟩ => RKind.vm
  | ⟨n + 6, h⟩ => absurd h (by omega)

/-- The handle a behavior returns for a kind (meaningful when the create
call for that kind succeeds). -/
def handleOf (B : Behavior) (k : RKind) : String :=
  match B.createRes k with
  | Except.ok h => h
  | Except.error _ => ""

/-- The `created_resources` list after the first k steps have committed. -/
def expectedCommitted (x : XCfg) (B : Behavior) (k : Nat) : List (RKind × PyVal) :=
  ([(RKind.vnet, PyVal.str x.virtual_network),
    (RKind.subnet, PyVal.str x.sub_network),
    (RKind.nsg, PyVal.str x.network_security_grp),
    (RKind.publicIp, PyVal.handle (handleOf B RKind.publicIp)),
    (RKind.nic, PyVal.str x.network_interface),
    (RKind.vm, PyVal.str x.vm_name)]).take k

/-! ### Helper lemmas -/

@[simp] theorem extract_mkCfg (x : XCfg) : extract (mkCfg x) = Except.ok x := rfl

@[simp] theorem deletesOf_nil : deletesOf [] = [] := rfl

@[simp] theorem deletesOf_cons_create (k : RKind) (a : List PyVal) (evs : List Event) :
    deletesOf (Event.create k a :: evs) = deletesOf evs := rfl

@[simp] theorem deletesOf_cons_delete (k : RKind) (g : String) (n : PyVal)
    (evs : List Event) :
    deletesOf (Event.delete k g n :: evs) = (k, n) :: deletesOf evs := rfl

@[simp] theorem deletesOf_cons_logFail (k : RKind) (n : PyVal) (e : String)
    (evs : List Event) :
    deletesOf (Event.logFail k n e :: evs) = deletesOf evs := rfl

@[simp] theorem deletesOf_append (a b : List Event) :
    deletesOf (a ++ b) = deletesOf a ++ deletesOf b :=
  List.filterMap_append a b _

/-- The delete calls of the rollback loop are exactly the entries of the
iterated list that have a delete branch, in iteration order, whatever the
outcome of each individual delete call. -/
@[simp] theorem deletesOf_rollback_go (B : Behavior) (g : String)
    (L : List (RKind × PyVal)) :
    deletesOf (rollback_go B g L) = L.filter fun p => deletable p.1 := by
  induction L with
  | nil => rfl
  | cons p rest ih =>
    obtain ⟨k, n⟩ := p
    by_cases hk : deletable k
    · cases hd : B.deleteRes k n <;> simp [rollback_go, hk, hd, ih]
    · simp [rollback_go, hk, ih]

/-- Every entry of the iterated list whose delete call fails has its
failure record in the rollback trace. -/
theorem logFail_mem_rollback_go (B : Behavior) (g : String)
    (L : List (RKind × PyVal)) (k : RKind) (n : PyVal) (e : String)
    (hmem : (k, n) ∈ L) (hk : deletable k = true)
    (hfail : B.deleteRes k n = Except.error e) :
    Event.logFail k n e ∈ rollback_go B g L := by
  induction L with
  | nil => simp at hmem
  | cons p rest ih =>
    obtain ⟨k', n'⟩ := p
    rcases List.mem_cons.mp hmem with hhead | htail
    · obtain ⟨hk1, hn1⟩ := Prod.mk.injEq .. ▸ hhead
      subst hk1; subst hn1
      simp [rollback_go, hk, hfail]
    · by_cases hk' : deletable k'
      · cases hd : B.deleteRes k' n' <;> simp [rollback_go, hk', hd, ih htail]
      · simpa [rollback_go, hk'] using ih htail

/-! ### Concrete fixtures used by witnesses and counterexamples -/

/-- A fully populated configuration. -/
def xA : XCfg :=
  ⟨"sub-1", "rg-1", "eastus", "vm-A", "Standard_B1s", "azureuser", "/home/u/key.pub",
   "vnet-1", "subnet-1", "nsg-1", "pip-1", "nic-1"⟩

/-- The same configuration with a different VM name. -/
def xB : XCfg := { xA with vm_name := "vm-B" }

/-- Create calls all succeed, returning one distinct handle per kind. -/
def okCreate : RKind → Except String String
  | RKind.rg => Except.ok "h-rg"
  | RKind.vnet => Except.ok "h-vnet"
  | RKind.subnet => Except.ok "h-subnet"
  | RKind.nsg => Except.ok "h-nsg"
  | RKind.publicIp => Except.ok "h-pip"
  | RKind.nic => Except.ok "h-nic"
  | RKind.vm => Except.ok "h-vm"

/-- Everything succeeds. -/
def okBehavior : Behavior :=
  ⟨okCreate, fun _ => some "ssh-ed25519 AAAA", fun _ _ => Except.ok ()⟩

/-- Like okCreate but the virtual network call returns a different handle. -/
def okCreateAlt : RKind → Except String String
  | RKind.vnet => Except.ok "h-vnet-other"
  | k => okCreate k

/-- Everything succeeds; only the returned vnet handle differs from
okBehavior. -/
def okBehaviorAlt : Behavior :=
  ⟨okCreateAlt, fun _ => some "ssh-ed25519 AAAA", fun _ _ => Except.ok ()⟩

/-- The NIC create call fails; everything else succeeds. -/
def nicFails : Behavior :=
  ⟨fun k => if k = RKind.nic then Except.error "nic conflict" else okCreate k,
   fun _ => some "ssh-ed25519 AAAA", fun _ _ => Except.ok ()⟩

/-- The VM create call fails with a quota error; all deletes succeed. -/
def vmFailsDelOk : Behavior :=
  ⟨fun k => if k = RKind.vm then Except.error "vm quota exceeded" else okCreate k,
   fun _ => some "ssh-ed25519 AAAA", fun _ _ => Except.ok ()⟩

/-- The VM create call fails with a quota error; the NIC delete call fails
with a busy error; all other deletes succeed. -/
def vmFailsNicDelBusy : Behavior :=
  ⟨fun k => if k = RKind.vm then Except.error "vm quota exceeded" else okCreate k,
   fun _ => some "ssh-ed25519 AAAA",
   fun k _ => if k = RKind.nic then Except.error "resource busy" else Except.ok ()⟩

/-- All create calls succeed but the SSH public key file is missing. -/
def noSshFile : Behavior :=
  ⟨okCreate, fun _ => none, fun _ _ => Except.ok ()⟩

/-- The resource-group ensure call fails; everything else succeeds. -/
def rgFails : Behavior :=
  ⟨fun k => if k = RKind.rg then Except.error "auth failed" else okCreate k,
   fun _ => some "ssh-ed25519 AAAA", fun _ _ => Except.ok ()⟩

/-! ### Characterization of runs -/

/-- If the resource-group ensure succeeds, every step before step i
succeeds, and step i raises error e, then the run re-raises e, commits
exactly the first i entries, and its delete calls are the committed
entries in reverse order restricted to the kinds that have a delete
branch. -/
theorem run_steps_firstFail (x : XCfg) (B : Behavior) (i : Fin 6) (e : String)
    (hrg : ∃ h, B.createRes RKind.rg = Except.ok h)
    (hok : ∀ j : Fin 6, j < i → ∃ h, B.createRes (kindOf j) = Except.ok h)
    (hssh : i.val = 5 → ∃ s, B.readFile x.ssh_public_key_path = some s)
    (hfail : B.createRes (kindOf i) = Except.error e) :
    (run_steps x B).result = Except.error (PyErr.provider e) ∧
    (run_steps x B).committed = expectedCommitted x B i.val ∧
    deletesOf (run_steps x B).events =
      (expectedCommitted x B i.val).reverse.filter fun p => deletable p.1 := by
  obtain ⟨hR, eR⟩ := hrg
  fin_cases i
  · have he' : B.createRes RKind.vnet = Except.error e := hfail
    refine ⟨?_, ?_, ?_⟩ <;>
      simp [run_steps, eR, he', expectedCommitted, rollback_resources]
  · obtain ⟨a0, e0⟩ := hok ⟨0, by omega⟩ (by decide)
    have e0' : B.createRes RKind.vnet = Except.ok a0 := e0
    have he' : B.createRes RKind.subnet = Except.error e := hfail
    refine ⟨?_, ?_, ?_⟩ <;>
      simp [run_steps, eR, e0', he', expectedCommitted, rollback_resources, deletable]
  · obtain ⟨a0, e0⟩ := hok ⟨0, by omega⟩ (by decide)
    obtain ⟨a1, e1⟩ := hok ⟨1, by omega⟩ (by decide)
    have e0' : B.createRes RKind.vnet = Except.ok a0 := e0
    have e1' : B.createRes RKind.subnet = Except.ok a1 := e1
    have he' : B.createRes RKind.nsg = Except.error e := hfail
    refine ⟨?_, ?_, ?_⟩ <;>
      simp [run_steps, eR, e0', e1', he', expectedCommitted, rollback_resources,
        deletable]
  · obtain ⟨a0, e0⟩ := hok ⟨0, by omega⟩ (by decide)
    obtain ⟨a1, e1⟩ := hok ⟨1, by omega⟩ (by decide)
    obtain ⟨a2, e2⟩ := hok ⟨2, by omega⟩ (by decide)
    have e0' : B.createRes RKind.vnet = Except.ok a0 := e0
    have e1' : B.createRes RKind.subnet = Except.ok a1 := e1
    have e2' : B.createRes RKind.nsg = Except.ok a2 := e2
    have he' : B.createRes RKind.publicIp = Except.error e := hfail
    refine ⟨?_, ?_, ?_⟩ <;>
      simp [run_steps, eR, e0', e1', e2', he', expectedCommitted, handleOf,
        rollback_resources, deletable]
  · obtain ⟨a0, e0⟩ := hok ⟨0, by omega⟩ (by decide)
    obtain ⟨a1, e1⟩ := hok ⟨1, by omega⟩ (by decide)
    obtain ⟨a2, e2⟩ := hok ⟨2, by omega⟩ (by decide)
    obtain ⟨a3, e3⟩ := hok ⟨3, by omega⟩ (by decide)
    have e0' : B.createRes RKind.vnet = Except.ok a0 := e0
    have e1' : B.createRes RKind.subnet = Except.ok a1 := e1
    have e2' : B.createRes RKind.nsg = Except.ok a2 := e2
    have e3' : B.createRes RKind.publicIp = Except.ok a3 := e3
    have he' : B.createRes RKind.nic = Except.error e := hfail
    refine ⟨?_, ?_, ?_⟩ <;>
      simp [run_steps, eR, e0', e1', e2', e3', he', expectedCommitted, handleOf,
        rollback_resources, deletable]
  · obtain ⟨a0, e0⟩ := hok ⟨0, by omega⟩ (by decide)
    obtain ⟨a1, e1⟩ := hok ⟨1, by omega⟩ (by decide)
    obtain ⟨a2, e2⟩ := hok ⟨2, by omega⟩ (by decide)
    obtain ⟨a3, e3⟩ := hok ⟨3, by omega⟩ (by decide)
    obtain ⟨a4, e4⟩ := hok ⟨4, by omega⟩ (by decide)
    obtain ⟨s, es⟩ := hssh rfl
    have e0' : B.createRes RKind.vnet = Except.ok a0 := e0
    have e1' : B.createRes RKind.subnet = Except.ok a1 := e1
    have e2' : B.createRes RKind.nsg = Except.ok a2 := e2
    have e3' : B.createRes RKind.publicIp = Except.ok a3 := e3
    have e4' : B.createRes RKind.nic = Except.ok a4 := e4
    have he' : B.createRes RKind.vm = Except.error e := hfail
    refine ⟨?_, ?_, ?_⟩ <;>
      simp [run_steps, eR, e0', e1', e2', e3', e4', es, he', expectedCommitted,
        handleOf, rollback_resources, deletable]

/-- If every call succeeds, the run returns normally, commits all six
entries in order, and issues no delete call. -/
theorem run_steps_all_ok (x : XCfg) (B : Behavior)
    (hR a0 a1 a2 a3 a4 a5 s : String)
    (eR : B.createRes RKind.rg = Except.ok hR)
    (e0 : B.createRes RKind.vnet = Except.ok a0)
    (e1 : B.createRes RKind.subnet = Except.ok a1)
    (e2 : B.createRes RKind.nsg = Except.ok a2)
    (e3 : B.createRes RKind.publicIp = Except.ok a3)
    (e4 : B.createRes RKind.nic = Except.ok a4)
    (es : B.readFile x.ssh_public_key_path = some s)
    (e5 : B.createRes RKind.vm = Except.ok a5) :
    run_steps x B =
      ⟨Except.ok (), expectedCommitted x B 6,
       [Event.create RKind.rg [PyVal.str x.resource_group, PyVal.str x.location],
        Event.create RKind.vnet [PyVal.str x.resource_group, PyVal.str x.virtual_network],
        Event.create RKind.subnet
          [PyVal.str x.resource_group, PyVal.str x.virtual_network, PyVal.str x.sub_network],
        Event.create RKind.nsg [PyVal.str x.resource_group, PyVal.str x.network_security_grp],
        Event.create RKind.publicIp [PyVal.str x.resource_group, PyVal.str x.public_ip],
        Event.create RKind.nic
          [PyVal.str x.resource_group, PyVal.str x.network_interface, PyVal.handle a1,
           PyVal.handle a3, PyVal.handle a2],
        Event.create RKind.vm
          [PyVal.str x.resource_group, PyVal.str x.vm_name, PyVal.handle a4,
           PyVal.str s, PyVal.str x.admin_username]]⟩ := by
  simp [run_steps, eR, e0, e1, e2, e3, e4, es, e5, expectedCommitted, handleOf]

/-- In every run: the first cloud call is the resource-group
create-or-update; the created-resources list never contains a
resource-group entry; and every delete call is for a kind with a delete
branch (in particular never for the resource group). -/
theorem run_steps_frame (x : XCfg) (B : Behavior) :
    (run_steps x B).events.head? =
      some (Event.create RKind.rg [PyVal.str x.resource_group, PyVal.str x.location]) ∧
    (∀ n, (RKind.rg, n) ∉ (run_steps x B).committed) ∧
    (∀ p ∈ deletesOf (run_steps x B).events, deletable p.1 = true) := by
  cases eR : B.createRes RKind.rg with
  | error e =>
    refine ⟨?_, ?_, ?_⟩ <;> simp [run_steps, eR, rollback_resources]
  | ok hR =>
  cases e0 : B.createRes RKind.vnet with
  | error e =>
    refine ⟨?_, ?_, ?_⟩ <;> simp [run_steps, eR, e0, rollback_resources]
  | ok a0 =>
  cases e1 : B.createRes RKind.subnet with
  | error e =>
    refine ⟨?_, ?_, ?_⟩ <;>
      simp [run_steps, eR, e0, e1, rollback_resources, List.mem_filter]
  | ok a1 =>
  cases e2 : B.createRes RKind.nsg with
  | error e =>
    refine ⟨?_, ?_, ?_⟩ <;>
      simp [run_steps, eR, e0, e1, e2, rollback_resources, List.mem_filter]
  | ok a2 =>
  cases e3 : B.createRes RKind.publicIp with
  | error e =>
    refine ⟨?_, ?_, ?_⟩ <;>
      simp [run_steps, eR, e0, e1, e2, e3, rollback_resources, List.mem_filter]
  | ok a3 =>
  cases e4 : B.createRes RKind.nic with
  | error e =>
    refine ⟨?_, ?_, ?_⟩ <;>
      simp [run_steps, eR, e0, e1, e2, e3, e4, rollback_resources, List.mem_filter]
  | ok a4 =>
  cases es : B.readFile x.ssh_public_key_path with
  | none =>
    refine ⟨?_, ?_, ?_⟩ <;>
      simp [run_steps, eR, e0, e1, e2, e3, e4, es, rollback_resources, List.mem_filter]
  | some s =>
  cases e5 : B.createRes RKind.vm with
  | error e =>
    refine ⟨?_, ?_, ?_⟩ <;>
      simp [run_steps, eR, e0, e1, e2, e3, e4, es, e5, rollback_resources,
        List.mem_filter]
  | ok a5 =>
    refine ⟨?_, ?_, ?_⟩ <;>
      simp [run_steps, eR, e0, e1, e2, e3, e4, es, e5, rollback_resources]

/-- On lists with no resource-group entry, filtering by the kinds that
have a delete branch is the same as skipping exactly the subnet entries. -/
theorem filter_deletable_eq (L : List (RKind × PyVal))
    (h : ∀ p ∈ L, p.1 ≠ RKind.rg) :
    (L.filter fun p => deletable p.1) =
      L.filter fun p => decide (p.1 ≠ RKind.subnet) := by
  induction L with
  | nil => rfl
  | cons p rest ih =>
    have hp := h p (List.mem_cons_self ..)
    have hrest := ih fun q hq => h q (List.mem_cons_of_mem _ hq)
    obtain ⟨k, n⟩ := p
    cases k <;> simp_all [deletable]

/-! ### Claims -/

/-- Claim C1: if step k (1-indexed over VNet, Subnet, NSG, PublicIP, NIC,
VM; here i = k-1 is 0-indexed) is the first of the six steps to fail, the
compensator receives exactly the k-1 committed entries, issues its delete
calls as the committed entries in strict reverse order with the subnet
entry skipped, and never issues a delete call for the Subnet kind. -/
theorem claim_c1 (x : XCfg) (B : Behavior) (i : Fin 6)
    (hrg : ∃ h, B.createRes RKind.rg = Except.ok h)
    (hok : ∀ j : Fin 6, j < i → ∃ h, B.createRes (kindOf j) = Except.ok h)
    (hssh : i.val = 5 → ∃ s, B.readFile x.ssh_public_key_path = some s)
    (hfail : ∃ e, B.createRes (kindOf i) = Except.error e) :
    (create_vm (mkCfg x) B).committed = expectedCommitted x B i.val ∧
    (create_vm (mkCfg x) B).committed.length = i.val ∧
    deletesOf (create_vm (mkCfg x) B).events =
      ((expectedCommitted x B i.val).reverse.filter fun p =>
        decide (p.1 ≠ RKind.subnet)) ∧
    ∀ n, (RKind.subnet, n) ∉ deletesOf (create_vm (mkCfg x) B).events := by
  obtain ⟨e, he⟩ := hfail
  have H := run_steps_firstFail x B i e hrg hok hssh he
  have hmem : ∀ p ∈ (expectedCommitted x B i.val).reverse, p.1 ≠ RKind.rg := by
    intro p hp
    rw [List.mem_reverse] at hp
    simp only [expectedCommitted] at hp
    have hp2 := List.take_subset _ _ hp
    fin_cases hp2 <;> simp
  refine ⟨H.2.1, ?_, ?_, ?_⟩
  · rw [show (create_vm (mkCfg x) B).committed = (run_steps x B).committed from rfl,
      H.2.1]
    simp only [expectedCommitted, List.length_take, List.length_cons,
      List.length_nil]
    omega
  · rw [show deletesOf (create_vm (mkCfg x) B).events =
        deletesOf (run_steps x B).events from rfl, H.2.2]
    exact filter_deletable_eq _ hmem
  · intro n hn
    rw [show deletesOf (create_vm (mkCfg x) B).events =
        deletesOf (run_steps x B).events from rfl, H.2.2] at hn
    have := (List.mem_filter.mp hn).2
    simp [deletable] at this

/-- Witness for claim C1: the NIC step (k = 5) is the first to fail, so
four entries are committed and the deletes are PublicIP, NSG, VNet in
reverse order, skipping the subnet entry. -/
theorem claim_c1_witness :
    (create_vm (mkCfg xA) nicFails).committed = expectedCommitted xA nicFails 4 ∧
    (create_vm (mkCfg xA) nicFails).committed.length = 4 ∧
    deletesOf (create_vm (mkCfg xA) nicFails).events =
      ((expectedCommitted xA nicFails 4).reverse.filter fun p =>
        decide (p.1 ≠ RKind.subnet)) ∧
    ∀ n, (RKind.subnet, n) ∉ deletesOf (create_vm (mkCfg xA) nicFails).events :=
  claim_c1 xA nicFails ⟨4, by omega⟩ ⟨"h-rg", rfl⟩
    (by
      intro j hj
      fin_cases j
      · exact ⟨"h-vnet", rfl⟩
      · exact ⟨"h-subnet", rfl⟩
      · exact ⟨"h-nsg", rfl⟩
      · exact ⟨"h-pip", rfl⟩
      · exact absurd hj (by decide)
      · exact absurd hj (by decide))
    (fun h => absurd h (by decide))
    ⟨"nic conflict", rfl⟩

/-- Claim C2: when step i is the first creation step to fail, raising
error e, the error surfaced to the caller is exactly that provider error.
The delete outcomes of B are completely unconstrained here, so the
conclusion holds whatever happens during rollback: a failed rollback
deletion can never replace the original creation error. -/
theorem claim_c2 (x : XCfg) (B : Behavior) (i : Fin 6) (e : String)
    (hrg : ∃ h, B.createRes RKind.rg = Except.ok h)
    (hok : ∀ j : Fin 6, j < i → ∃ h, B.createRes (kindOf j) = Except.ok h)
    (hssh : i.val = 5 → ∃ s, B.readFile x.ssh_public_key_path = some s)
    (hfail : B.createRes (kindOf i) = Except.error e) :
    (create_vm (mkCfg x) B).result = Except.error (PyErr.provider e) := by
  exact (run_steps_firstFail x B i e hrg hok hssh hfail).1

/-- Witness for claim C2: the VM step fails with a quota error while the
NIC delete call during rollback fails with a busy error; the caller still
receives the quota error. -/
theorem claim_c2_witness :
    (create_vm (mkCfg xA) vmFailsNicDelBusy).result =
      Except.error (PyErr.provider "vm quota exceeded") :=
  claim_c2 xA vmFailsNicDelBusy ⟨5, by omega⟩ "vm quota exceeded" ⟨"h-rg", rfl⟩
    (by
      intro j hj
      fin_cases j
      · exact ⟨"h-vnet", rfl⟩
      · exact ⟨"h-subnet", rfl⟩
      · exact ⟨"h-nsg", rfl⟩
      · exact ⟨"h-pip", rfl⟩
      · exact ⟨"h-nic", rfl⟩
      · exact absurd hj (by decide))
    (fun _ => ⟨"ssh-ed25519 AAAA", rfl⟩)
    rfl

/-- Claim C4: in every rollback run, every entry with a delete branch is
attempted (the delete calls are exactly the reversed list restricted to
those kinds, whatever the outcome of each individual delete), and every
entry whose delete call fails has its failure recorded with resource
kind, name and error; no failing deletion aborts the loop or blocks the
remaining deletions. -/
theorem claim_c4 (B : Behavior) (g : String) (L : List (RKind × PyVal)) :
    deletesOf (rollback_resources B g L) =
      (L.reverse.filter fun p => deletable p.1) ∧
    ∀ k n e, (k, n) ∈ L → deletable k = true →
      B.deleteRes k n = Except.error e →
      Event.logFail k n e ∈ rollback_resources B g L := by
  constructor
  · simp [rollback_resources]
  · intro k n e hmem hk hf
    exact logFail_mem_rollback_go B g L.reverse k n e (by simpa using hmem) hk hf

/-- Witness for claim C4: rolling back four committed entries with a
failing NIC delete records the NIC failure and still issues the
PublicIP, NSG and VNet deletes. -/
theorem claim_c4_witness :
    deletesOf (rollback_resources vmFailsNicDelBusy "rg-1"
        [(RKind.vnet, PyVal.str "vnet-1"), (RKind.subnet, PyVal.str "subnet-1"),
         (RKind.nsg, PyVal.str "nsg-1"), (RKind.nic, PyVal.str "nic-1")]) =
      ([(RKind.vnet, PyVal.str "vnet-1"), (RKind.subnet, PyVal.str "subnet-1"),
        (RKind.nsg, PyVal.str "nsg-1"),
        (RKind.nic, PyVal.str "nic-1")].reverse.filter fun p => deletable p.1) ∧
    Event.logFail RKind.nic (PyVal.str "nic-1") "resource busy" ∈
      rollback_resources vmFailsNicDelBusy "rg-1"
        [(RKind.vnet, PyVal.str "vnet-1"), (RKind.subnet, PyVal.str "subnet-1"),
         (RKind.nsg, PyVal.str "nsg-1"), (RKind.nic, PyVal.str "nic-1")] :=
  ⟨(claim_c4 vmFailsNicDelBusy "rg-1" _).1,
   (claim_c4 vmFailsNicDelBusy "rg-1" _).2 RKind.nic (PyVal.str "nic-1")
     "resource busy" (by decide) (by decide) rfl⟩

/-- Claim C9: in every run with a fully populated configuration, the
resource group is ensured by the first cloud call (the create-or-update
for the resource-group kind, before any of the six steps), no
resource-group entry is ever appended to the committed sequence, and no
delete call for the resource-group kind is ever issued. -/
theorem claim_c9 (x : XCfg) (B : Behavior) :
    (create_vm (mkCfg x) B).events.head? =
      some (Event.create RKind.rg [PyVal.str x.resource_group, PyVal.str x.location]) ∧
    (∀ n, (RKind.rg, n) ∉ (create_vm (mkCfg x) B).committed) ∧
    (∀ n, (RKind.rg, n) ∉ deletesOf (create_vm (mkCfg x) B).events) := by
  have H := run_steps_frame x B
  refine ⟨H.1, H.2.1, ?_⟩
  intro n hn
  have := H.2.2 _ hn
  simp [deletable] at this

/-- Witness for claim C9 at a concrete run in which the VM step fails and
every rollback delete is attempted: the resource group is still neither
committed nor deleted, and its ensure call comes first. -/
theorem claim_c9_witness :
    (create_vm (mkCfg xA) vmFailsNicDelBusy).events.head? =
      some (Event.create RKind.rg [PyVal.str xA.resource_group, PyVal.str xA.location]) ∧
    (RKind.rg, PyVal.str "rg-1") ∉ (create_vm (mkCfg xA) vmFailsNicDelBusy).committed ∧
    (RKind.rg, PyVal.str "rg-1") ∉
      deletesOf (create_vm (mkCfg xA) vmFailsNicDelBusy).events :=
  ⟨(claim_c9 xA vmFailsNicDelBusy).1,
   (claim_c9 xA vmFailsNicDelBusy).2.1 (PyVal.str "rg-1"),
   (claim_c9 xA vmFailsNicDelBusy).2.2 (PyVal.str "rg-1")⟩

/-- Claim C10: if the initial resource-group ensure call fails, the run
ends with exactly that provider error propagated unchanged, an empty
committed sequence, and a trace containing only the ensure call itself:
rollback runs on the empty list and issues no delete call of any kind. -/
theorem claim_c10 (x : XCfg) (B : Behavior) (e : String)
    (h : B.createRes RKind.rg = Except.error e) :
    create_vm (mkCfg x) B =
      ⟨Except.error (PyErr.provider e), [],
       [Event.create RKind.rg [PyVal.str x.resource_group, PyVal.str x.location]]⟩ := by
  simp [create_vm, run_steps, h, rollback_resources, rollback_go]

/-- Witness for claim C10: a concrete run whose resource-group ensure
call fails with an auth error. -/
theorem claim_c10_witness :
    create_vm (mkCfg xA) rgFails =
      ⟨Except.error (PyErr.provider "auth failed"), [],
       [Event.create RKind.rg [PyVal.str xA.resource_group, PyVal.str xA.location]]⟩ :=
  claim_c10 xA rgFails "auth failed" rfl

/-- Claim C3 counterexample: two fully successful runs that differ only in
the VM name return the same caller-visible value. The source has no return
statement, so success is signaled by returning None; the returned outcome
therefore cannot contain the VM identifier claimed for it. -/
theorem claim_c3_counterexample :
    (create_vm (mkCfg xA) okBehavior).result = Except.ok () ∧
    (create_vm (mkCfg xB) okBehavior).result =
      (create_vm (mkCfg xA) okBehavior).result ∧
    xA.vm_name ≠ xB.vm_name :=
  ⟨rfl, rfl, by decide⟩

/-- Claim C3 as amended: when all calls succeed, the cloud calls happen in
the fixed order (resource-group ensure, then VNet, Subnet, NSG, PublicIP,
NIC, VM), the committed sequence is exactly the six step entries in that
order, and the run returns successfully, but with no value: the VM name
appears only in the internal committed sequence, not in the returned
outcome. -/
theorem claim_c3_amended (x : XCfg) (B : Behavior)
    (hR a0 a1 a2 a3 a4 a5 s : String)
    (eR : B.createRes RKind.rg = Except.ok hR)
    (e0 : B.createRes RKind.vnet = Except.ok a0)
    (e1 : B.createRes RKind.subnet = Except.ok a1)
    (e2 : B.createRes RKind.nsg = Except.ok a2)
    (e3 : B.createRes RKind.publicIp = Except.ok a3)
    (e4 : B.createRes RKind.nic = Except.ok a4)
    (es : B.readFile x.ssh_public_key_path = some s)
    (e5 : B.createRes RKind.vm = Except.ok a5) :
    createKinds (create_vm (mkCfg x) B).events =
      [RKind.rg, RKind.vnet, RKind.subnet, RKind.nsg, RKind.publicIp,
       RKind.nic, RKind.vm] ∧
    (create_vm (mkCfg x) B).committed =
      [(RKind.vnet, PyVal.str x.virtual_network),
       (RKind.subnet, PyVal.str x.sub_network),
       (RKind.nsg, PyVal.str x.network_security_grp),
       (RKind.publicIp, PyVal.handle a3),
       (RKind.nic, PyVal.str x.network_interface),
       (RKind.vm, PyVal.str x.vm_name)] ∧
    (create_vm (mkCfg x) B).committed.length = 6 ∧
    (create_vm (mkCfg x) B).result = Except.ok () := by
  have H := run_steps_all_ok x B hR a0 a1 a2 a3 a4 a5 s eR e0 e1 e2 e3 e4 es e5
  rw [show create_vm (mkCfg x) B = run_steps x B from rfl, H]
  refine ⟨?_, ?_, ?_, ?_⟩ <;> simp [createKinds, expectedCommitted, handleOf, e3]

/-- Witness for the amended claim C3: a concrete fully successful run. -/
theorem claim_c3_amended_witness :
    createKinds (create_vm (mkCfg xA) okBehavior).events =
      [RKind.rg, RKind.vnet, RKind.subnet, RKind.nsg, RKind.publicIp,
       RKind.nic, RKind.vm] ∧
    (create_vm (mkCfg xA) okBehavior).committed =
      [(RKind.vnet, PyVal.str "vnet-1"), (RKind.subnet, PyVal.str "subnet-1"),
       (RKind.nsg, PyVal.str "nsg-1"), (RKind.publicIp, PyVal.handle "h-pip"),
       (RKind.nic, PyVal.str "nic-1"), (RKind.vm, PyVal.str "vm-A")] ∧
    (create_vm (mkCfg xA) okBehavior).committed.length = 6 ∧
    (create_vm (mkCfg xA) okBehavior).result = Except.ok () :=
  claim_c3_amended xA okBehavior "h-rg" "h-vnet" "h-subnet" "h-nsg" "h-pip"
    "h-nic" "h-vm" "ssh-ed25519 AAAA" rfl rfl rfl rfl rfl rfl rfl rfl

/-- Claim C5 counterexample: with the VM step failing, a run in which the
NIC rollback delete fails returns exactly the same caller-visible value as
a run in which every rollback delete succeeds, even though the failure is
recorded in the console trace. No rollback report is part of the outcome
surfaced to the caller; the rollback enumeration exists only as console
output, and the Python rollback helper itself returns None. -/
theorem claim_c5_counterexample :
    (create_vm (mkCfg xA) vmFailsNicDelBusy).result =
      (create_vm (mkCfg xA) vmFailsDelOk).result ∧
    Event.logFail RKind.nic (PyVal.str "nic-1") "resource busy" ∈
      (create_vm (mkCfg xA) vmFailsNicDelBusy).events ∧
    (create_vm (mkCfg xA) vmFailsNicDelBusy).result =
      Except.error (PyErr.provider "vm quota exceeded") :=
  ⟨rfl, by decide, rfl⟩

/-- Claim C5 as amended: rollback prints a record of each failed deletion
and continues, but returns no report; the value surfaced to the caller is
identical whatever the outcomes of the rollback deletions are, so no part
of the rollback result reaches the caller. -/
theorem claim_c5_amended (x : XCfg) (cr : RKind → Except String String)
    (rf : String → Option String) (d1 d2 : RKind → PyVal → Except String Unit) :
    (create_vm (mkCfg x) ⟨cr, rf, d1⟩).result =
      (create_vm (mkCfg x) ⟨cr, rf, d2⟩).result := by
  cases eR : cr RKind.rg with
  | error e => simp [create_vm, run_steps, eR]
  | ok hR =>
  cases e0 : cr RKind.vnet with
  | error e => simp [create_vm, run_steps, eR, e0]
  | ok a0 =>
  cases e1 : cr RKind.subnet with
  | error e => simp [create_vm, run_steps, eR, e0, e1]
  | ok a1 =>
  cases e2 : cr RKind.nsg with
  | error e => simp [create_vm, run_steps, eR, e0, e1, e2]
  | ok a2 =>
  cases e3 : cr RKind.publicIp with
  | error e => simp [create_vm, run_steps, eR, e0, e1, e2, e3]
  | ok a3 =>
  cases e4 : cr RKind.nic with
  | error e => simp [create_vm, run_steps, eR, e0, e1, e2, e3, e4]
  | ok a4 =>
  cases es : rf x.ssh_public_key_path with
  | none => simp [create_vm, run_steps, eR, e0, e1, e2, e3, e4, es]
  | some s =>
    cases e5 : cr RKind.vm with
    | error e => simp [create_vm, run_steps, eR, e0, e1, e2, e3, e4, es, e5]
    | ok a5 => simp [create_vm, run_steps, eR, e0, e1, e2, e3, e4, es, e5]

/-- A configuration in which the required VM name key is missing. -/
def cfgMissingVmName : Cfg := { mkCfg xA with vm_name := none }

/-- Claim C6 counterexample: with every required key present but the SSH
public key file missing, the run fails only after the resource group and
five resources have been created by cloud calls, and rollback is
triggered, issuing four delete calls. The SSH key material is therefore
NOT validated before cloud calls are made. -/
theorem claim_c6_counterexample :
    (create_vm (mkCfg xA) noSshFile).result =
      Except.error (PyErr.fileError "/home/u/key.pub") ∧
    createKinds (create_vm (mkCfg xA) noSshFile).events =
      [RKind.rg, RKind.vnet, RKind.subnet, RKind.nsg, RKind.publicIp, RKind.nic] ∧
    (create_vm (mkCfg xA) noSshFile).committed.length = 5 ∧
    deletesOf (create_vm (mkCfg xA) noSshFile).events =
      [(RKind.nic, PyVal.str "nic-1"), (RKind.publicIp, PyVal.handle "h-pip"),
       (RKind.nsg, PyVal.str "nsg-1"), (RKind.vnet, PyVal.str "vnet-1")] :=
  ⟨rfl, rfl, rfl, rfl⟩

/-- Claim C6 as amended: a missing required configuration key is detected
by the dictionary accesses before any cloud call, propagates as a
KeyError, and triggers no rollback (no cloud call and no delete happens);
but the SSH key material is only read after the NIC step, so a missing or
unreadable key file fails the run with five resources already committed
and does trigger their rollback. -/
theorem claim_c6_amended :
    (∀ (cfg : Cfg) (B : Behavior) (e : PyErr), extract cfg = Except.error e →
      create_vm cfg B = ⟨Except.error e, [], []⟩) ∧
    (∀ (x : XCfg) (B : Behavior) (hR a0 a1 a2 a3 a4 : String),
      B.createRes RKind.rg = Except.ok hR →
      B.createRes RKind.vnet = Except.ok a0 →
      B.createRes RKind.subnet = Except.ok a1 →
      B.createRes RKind.nsg = Except.ok a2 →
      B.createRes RKind.publicIp = Except.ok a3 →
      B.createRes RKind.nic = Except.ok a4 →
      B.readFile x.ssh_public_key_path = none →
      (create_vm (mkCfg x) B).result =
          Except.error (PyErr.fileError x.ssh_public_key_path) ∧
        (create_vm (mkCfg x) B).committed.length = 5 ∧
        deletesOf (create_vm (mkCfg x) B).events ≠ []) := by
  constructor
  · intro cfg B e he
    simp [create_vm, he]
  · intro x B hR a0 a1 a2 a3 a4 eR e0 e1 e2 e3 e4 es
    refine ⟨?_, ?_, ?_⟩ <;>
      simp [create_vm, run_steps, eR, e0, e1, e2, e3, e4, es, rollback_resources,
        deletable]

/-- Witness for the amended claim C6: a missing vm name key fails with a
KeyError, no cloud call and no rollback; a missing SSH key file fails
after five committed steps and rolls them back. -/
theorem claim_c6_amended_witness :
    create_vm cfgMissingVmName okBehavior =
      ⟨Except.error (PyErr.keyError "vm.name"), [], []⟩ ∧
    (create_vm (mkCfg xA) noSshFile).result =
        Except.error (PyErr.fileError xA.ssh_public_key_path) ∧
      (create_vm (mkCfg xA) noSshFile).committed.length = 5 ∧
      deletesOf (create_vm (mkCfg xA) noSshFile).events ≠ [] :=
  ⟨claim_c6_amended.1 cfgMissingVmName okBehavior (PyErr.keyError "vm.name") rfl,
   claim_c6_amended.2 xA noSshFile "h-rg" "h-vnet" "h-subnet" "h-nsg" "h-pip"
     "h-nic" rfl rfl rfl rfl rfl rfl rfl⟩

/-- Claim C7, evaluated at a failing input: in a run in which the NIC
step fails after the public IP committed, rollback issues the public IP
delete call with the handle object returned by the creation call, NOT
with the configured public IP name, while the NSG and VNet deletes do use
their configured names. The source shadows the variable holding the
configured public IP name with the creation result at line 90 and appends
that result to the created-resources list at line 94. -/
theorem claim_c7_bug :
    (RKind.publicIp, PyVal.handle "h-pip") ∈
      deletesOf (create_vm (mkCfg xA) nicFails).events ∧
    (RKind.publicIp, PyVal.str xA.public_ip) ∉
      deletesOf (create_vm (mkCfg xA) nicFails).events ∧
    (RKind.nsg, PyVal.str xA.network_security_grp) ∈
      deletesOf (create_vm (mkCfg xA) nicFails).events ∧
    (RKind.vnet, PyVal.str xA.virtual_network) ∈
      deletesOf (create_vm (mkCfg xA) nicFails).events := by decide

/-- Claim C8 counterexample: two runs that differ ONLY in the handle the
provider returns for the VNet creation are completely identical, down to
every argument of every cloud call: the subnet step does not use the VNet
handle (it passes the configured VNet name), and the returned VNet handle
is used nowhere at all. -/
theorem claim_c8_counterexample :
    okBehavior.createRes RKind.vnet = Except.ok "h-vnet" ∧
    okBehaviorAlt.createRes RKind.vnet = Except.ok "h-vnet-other" ∧
    ("h-vnet" : String) ≠ "h-vnet-other" ∧
    create_vm (mkCfg xA) okBehavior = create_vm (mkCfg xA) okBehaviorAlt :=
  ⟨rfl, rfl, by decide, rfl⟩

/-- Claim C8 as amended: the subnet create call is wired with the VNet
configured NAME (the VNet returned handle is unused); the NIC create call
is wired with the handles returned by the Subnet, PublicIP and NSG steps;
and the VM create call is wired with the handle returned by the NIC
step. -/
theorem claim_c8_amended (x : XCfg) (B : Behavior)
    (hR a0 a1 a2 a3 a4 a5 s : String)
    (eR : B.createRes RKind.rg = Except.ok hR)
    (e0 : B.createRes RKind.vnet = Except.ok a0)
    (e1 : B.createRes RKind.subnet = Except.ok a1)
    (e2 : B.createRes RKind.nsg = Except.ok a2)
    (e3 : B.createRes RKind.publicIp = Except.ok a3)
    (e4 : B.createRes RKind.nic = Except.ok a4)
    (es : B.readFile x.ssh_public_key_path = some s)
    (e5 : B.createRes RKind.vm = Except.ok a5) :
    Event.create RKind.subnet
        [PyVal.str x.resource_group, PyVal.str x.virtual_network,
         PyVal.str x.sub_network]
      ∈ (create_vm (mkCfg x) B).events ∧
    Event.create RKind.nic
        [PyVal.str x.resource_group, PyVal.str x.network_interface,
         PyVal.handle a1, PyVal.handle a3, PyVal.handle a2]
      ∈ (create_vm (mkCfg x) B).events ∧
    Event.create RKind.vm
        [PyVal.str x.resource_group, PyVal.str x.vm_name, PyVal.handle a4,
         PyVal.str s, PyVal.str x.admin_username]
      ∈ (create_vm (mkCfg x) B).events := by
  have H := run_steps_all_ok x B hR a0 a1 a2 a3 a4 a5 s eR e0 e1 e2 e3 e4 es e5
  rw [show create_vm (mkCfg x) B = run_steps x B from rfl, H]
  refine ⟨?_, ?_, ?_⟩ <;> simp

/-- Witness for the amended claim C8: the concrete fully successful run,
whose NIC call carries the subnet, public IP and NSG handles and whose VM
call carries the NIC handle. -/
theorem claim_c8_amended_witness :
    Event.create RKind.subnet
        [PyVal.str "rg-1", PyVal.str "vnet-1", PyVal.str "subnet-1"]
      ∈ (create_vm (mkCfg xA) okBehavior).events ∧
    Event.create RKind.nic
        [PyVal.str "rg-1", PyVal.str "nic-1", PyVal.handle "h-subnet",
         PyVal.handle "h-pip", PyVal.handle "h-nsg"]
      ∈ (create_vm (mkCfg xA) okBehavior).events ∧
    Event.create RKind.vm
        [PyVal.str "rg-1", PyVal.str "vm-A", PyVal.handle "h-nic",
         PyVal.str "ssh-ed25519 AAAA", PyVal.str "azureuser"]
      ∈ (create_vm (mkCfg xA) okBehavior).events :=
  claim_c8_amended xA okBehavior "h-rg" "h-vnet" "h-subnet" "h-nsg" "h-pip"
    "h-nic" "h-vm" "ssh-ed25519 AAAA" rfl rfl rfl rfl rfl rfl rfl rfl
